import Mathlib

/-!
Verification development for the RFP proposal-analysis repository
(src/backend/app.py, src/backend/gemini_client.py, src/backend/main.py,
src/frontend/main.py).

The stage-orchestration logic of the repository is shallowly embedded here:
each relevant Python function becomes a Lean function over explicit state.
The external LLM call (model.generate_content) is modelled as an oracle of
type String to Except GenError String; the async methods that the app layer
invokes are modelled as executed to completion, abstracting the event-loop
plumbing.  Python truthiness on optional strings (None or the empty string
count as false) is modelled by optTruthy.  The long fixed prose inside the
LLM prompts is condensed: the interpolation structure (which computed values
appear, in which order, with which fallbacks) follows the source exactly,
since that is all the stated properties depend on.
-/

/-- Failure modes of the external LLM gateway (the exceptions that
model.generate_content can raise in the source). -/
inductive GenError where
  | timeout : GenError
  | rateLimited : GenError
  | remoteFailure : String → GenError
deriving DecidableEq, Repr

/-- The message text carried by a gateway failure, as interpolated by the
except-branches (str(e) in the source). -/
def GenError.message : GenError → String
  | GenError.timeout => "Timeout"
  | GenError.rateLimited => "RateLimited"
  | GenError.remoteFailure m => m

/-- The LLM gateway: one generate_content call, prompt in, either the
response text or a raised error out. -/
abbrev Gw := String → Except GenError String

/-- Python truthiness of a string: empty strings are falsy. -/
def pyTruthyStr (s : String) : Bool := !(s == "")

/-- Python truthiness of an optional string: None and the empty string are
falsy.  This is the duck-typed presence check the app uses everywhere
(the sidebar progress at app.py and the caching guards of the step pages). -/
def optTruthy (o : Option String) : Bool :=
  match o with
  | Option.none => false
  | Option.some s => pyTruthyStr s

/-- Python f-string rendering of a possibly-None value: None prints as the
four-character text None. -/
def pyStr (o : Option String) : String :=
  match o with
  | Option.none => "None"
  | Option.some s => s

namespace GeminiClient

/-- The extra_components argument of analysis_proposal: the Python value may
be None, a string, or a list of strings. -/
inductive ExtraComponents where
  | nil : ExtraComponents
  | ofStr : String → ExtraComponents
  | ofList : List String → ExtraComponents
deriving DecidableEq, Repr

/-- Python truthiness of the extra_components argument. -/
def ExtraComponents.truthy : ExtraComponents → Bool
  | ExtraComponents.nil => false
  | ExtraComponents.ofStr s => pyTruthyStr s
  | ExtraComponents.ofList l => !l.isEmpty

/-- The 14 standard components listed in analysis_proposal
(gemini_client.py and the identical copy in backend main.py). -/
def standard_components : List String := [
  "1. Executive Summary / Project Overview",
  "2. Scope of Work (In Scope)",
  "3. Out of Scope",
  "4. Prerequisites / Requirements",
  "5. Deliverables",
  "6. Timeline / Schedule",
  "7. Technology Stack / Technical Requirements",
  "8. Budget / Cost Estimation",
  "9. Team Structure / Resources",
  "10. Risk Assessment / Mitigation",
  "11. Success Criteria / Acceptance Criteria",
  "12. Testing Strategy",
  "13. Maintenance & Support",
  "14. Additional Comments / Notes"]

/-- The numbering loop of analysis_proposal: append each extra component
with the running number, incrementing after each one. -/
def numberedFrom : Nat → List String → List String
  | _, [] => []
  | n, c :: cs => (toString n ++ ". " ++ c) :: numberedFrom (n + 1) cs

/-- components_to_check of analysis_proposal: a copy of the standard list,
then, when extra_components is truthy, the extra entries numbered from
len(standard_components) + 1; a bare string contributes one entry, a list
contributes one entry per element. -/
def components_to_check (extra : ExtraComponents) : List String :=
  standard_components ++
    (if extra.truthy then
      match extra with
      | ExtraComponents.nil => []
      | ExtraComponents.ofStr s =>
          [toString (standard_components.length + 1) ++ ". " ++ s]
      | ExtraComponents.ofList l =>
          numberedFrom (standard_components.length + 1) l
    else [])

/-- Prompt of analysis_proposal (prose condensed; interpolation structure
as in the source: proposal text, then the checklist joined by newline and
two spaces). -/
def analysis_proposal_prompt (proposal_text : String) (extra : ExtraComponents) : String :=
  "You are a project manager experienced in analyzing RFP (Request for Proposal) documents. Based on the following proposal text, analyze which key RFP components are present:\nProposal Text:\n"
  ++ proposal_text
  ++ "\nThe RFP components to check for are:\n"
  ++ String.intercalate "\n  " (components_to_check extra)
  ++ "\nFormat your response as a markdown table with these columns:\n| Component | Present (True/False) if true ✅ else ❌  | Details/Notes | PageNumber"

/-- analysis_proposal: builds the checklist prompt and performs one gateway
call; gateway errors are NOT caught here (they propagate to the caller). -/
def analysis_proposal (gw : Gw) (proposal_text : String) (extra : ExtraComponents) :
    Except GenError String :=
  gw (analysis_proposal_prompt proposal_text extra)

/-- Prompt of gemini_client.analyze_pricing (prose condensed). -/
def analyze_pricing_prompt (proposal_text ai_analysis_details : String) : String :=
  "Perform a comprehensive component-wise price analysis on the following proposal. Use the component scope identified in the AI analysis to structure the pricing breakdown.\nPROPOSAL TEXT:\n"
  ++ proposal_text
  ++ "\nAI ANALYSIS DETAILS (Component Scope Reference):\n"
  ++ ai_analysis_details
  ++ "\nCOMPONENT-WISE PRICING ANALYSIS"

/-- gemini_client.analyze_pricing: one gateway call; a raised gateway error
is caught and returned as an error-message string (not re-raised, no Failed
status is recorded anywhere). -/
def analyze_pricing (gw : Gw) (proposal_text ai_analysis_details : String) : String :=
  match gw (analyze_pricing_prompt proposal_text ai_analysis_details) with
  | Except.ok t => t
  | Except.error e => "Error in component-wise price analysis: " ++ e.message

/-- Prompt of gemini_client.analyze_cost_realism (prose condensed). -/
def analyze_cost_realism_prompt (proposal_text ai_analysis_details : String) : String :=
  "Perform a comprehensive cost realism analysis on the following government contract proposal per FAR 15.404-1(d).\nPROPOSAL TEXT:\n"
  ++ proposal_text
  ++ "\nAI ANALYSIS DETAILS:\n"
  ++ ai_analysis_details
  ++ "\nCOST REALISM ANALYSIS REQUIREMENTS:"

/-- gemini_client.analyze_cost_realism: internal try/except returns an
error-message string on gateway failure. -/
def analyze_cost_realism (gw : Gw) (proposal_text ai_analysis_details : String) : String :=
  match gw (analyze_cost_realism_prompt proposal_text ai_analysis_details) with
  | Except.ok t => t
  | Except.error e => "Error in cost realism analysis: " ++ e.message

/-- Prompt of technical_analysis_review (prose condensed; only the proposal
text is interpolated). -/
def technical_analysis_review_prompt (proposal_text : String) : String :=
  "Conduct a thorough technical analysis of the following proposal.\nPROPOSAL TEXT:\n"
  ++ proposal_text
  ++ "\nTECHNICAL ANALYSIS FRAMEWORK:"

/-- gemini_client.technical_analysis_review with its internal try/except. -/
def technical_analysis_review (gw : Gw) (proposal_text : String) : String :=
  match gw (technical_analysis_review_prompt proposal_text) with
  | Except.ok t => t
  | Except.error e => "Error in technical analysis: " ++ e.message

/-- Prompt of compliance_assessment (prose condensed). -/
def compliance_assessment_prompt (proposal_text : String) : String :=
  "Perform a detailed compliance assessment of the following proposal.\nPROPOSAL TEXT:\n"
  ++ proposal_text
  ++ "\nCOMPLIANCE ASSESSMENT AREAS:"

/-- gemini_client.compliance_assessment with its internal try/except. -/
def compliance_assessment (gw : Gw) (proposal_text : String) : String :=
  match gw (compliance_assessment_prompt proposal_text) with
  | Except.ok t => t
  | Except.error e => "Error in compliance assessment: " ++ e.message

/-- The conditional-expression fallback used for each optional analysis in
the summary prompt: a falsy value (None or the empty string) renders as the
fixed text Not performed. -/
def orNotPerformed (o : Option String) : String :=
  match o with
  | Option.none => "Not performed"
  | Option.some s => if s == "" then "Not performed" else s

/-- The summary prompt with the four optional slots already rendered to
plain strings (prose condensed; slot order as in the source). -/
def summary_prompt_core (proposal_text ai_analysis_details priceS costS techS complS : String) : String :=
  "As a senior government contracts specialist, generate a comprehensive 2-3 page executive summary that synthesizes all analyses of this proposal.\n# INPUT DATA\n## PROPOSAL CONTENT:\n"
  ++ proposal_text
  ++ "\n## DETAILED ANALYSES:\n**AI Component Analysis:**\n"
  ++ ai_analysis_details
  ++ "\n**Price Analysis:**\n" ++ priceS
  ++ "\n**Cost Realism Assessment:**\n" ++ costS
  ++ "\n**Technical Evaluation:**\n" ++ techS
  ++ "\n**Compliance Verification:**\n" ++ complS
  ++ "\n# REQUIRED OUTPUT STRUCTURE"

/-- Prompt of analysis_proposal_summary: each of the four optional analyses
falls back to the text Not performed when absent (None) or empty. -/
def analysis_proposal_summary_prompt (proposal_text ai_analysis_details : String)
    (price_analysis cost_realism technical_analysis compliance_assessment : Option String) :
    String :=
  summary_prompt_core proposal_text ai_analysis_details
    (orNotPerformed price_analysis) (orNotPerformed cost_realism)
    (orNotPerformed technical_analysis) (orNotPerformed compliance_assessment)

/-- gemini_client.analysis_proposal_summary: one gateway call on the summary
prompt; the internal try/except turns a gateway failure into an
error-message string, so the call itself never raises. -/
def analysis_proposal_summary (gw : Gw) (proposal_text ai_analysis_details : String)
    (price_analysis cost_realism technical_analysis compliance_assessment : Option String) :
    String :=
  match gw (analysis_proposal_summary_prompt proposal_text ai_analysis_details
      price_analysis cost_realism technical_analysis compliance_assessment) with
  | Except.ok t => t
  | Except.error e => "Error generating proposal summary: " ++ e.message

end GeminiClient

namespace App

open GeminiClient

/-- The mutable streamlit session keys of the with_proposal workflow in
backend app.py (and the identical frontend copy), one record field per
session_state key touched by the stage pages. -/
structure SessionState where
  step : Nat
  proposal_text : String
  proposal_analysis : Option (List (String × String))
  ai_analysis_details : Option String
  proposal_summary : Option String
  extra_component : String
  current_filename : Option String
  price_analysis : Option String
  cost_realism : Option String
  unbalanced_pricing : Option String
  technical_analysis : Option String
  compliance_assessment : Option String
  processing : Bool
deriving DecidableEq, Repr

/-- The constant component checklist built by analyze_proposal_components
(app.py; the frontend copy is character-for-character identical): 11 names,
every one mapped to the check-mark indicator, independent of the inputs. -/
def proposal_components_checklist : List (String × String) := [
  ("Executive Summary", "✅"),
  ("Scope of Work", "✅"),
  ("Out of Scope", "✅"),
  ("Prerequisites", "✅"),
  ("Deliverables", "✅"),
  ("Timeline", "✅"),
  ("Technology Stack", "✅"),
  ("Budget", "✅"),
  ("Team Structure", "✅"),
  ("Risk Assessment", "✅"),
  ("Success Criteria", "✅")]

/-- app.py analyze_proposal_components: runs the AI analysis, then returns
the fixed checklist together with the free-text AI analysis; the try/except
turns any raised gateway error into the pair (None, None). -/
def analyze_proposal_components (gw : Gw) (proposal_text extra_component : String) :
    Option (List (String × String)) × Option String :=
  match GeminiClient.analysis_proposal gw proposal_text
      (ExtraComponents.ofStr extra_component) with
  | Except.ok ai => (Option.some proposal_components_checklist, Option.some ai)
  | Except.error _ => (Option.none, Option.none)

/-- reset_process_proposal: deletes every workflow key and reinstates the
step-1 defaults; the resulting session does not depend on the prior one. -/
def reset_process_proposal : SessionState :=
  { step := 1,
    proposal_text := "",
    proposal_analysis := Option.none,
    ai_analysis_details := Option.none,
    proposal_summary := Option.none,
    extra_component := "",
    current_filename := Option.none,
    price_analysis := Option.none,
    cost_realism := Option.none,
    unbalanced_pricing := Option.none,
    technical_analysis := Option.none,
    compliance_assessment := Option.none,
    processing := false }

/-- Step-1 upload handler (app.py): stores the filename, and when the
extracted text is truthy stores it as proposal_text and recomputes the
component analysis; no other session key is written. -/
def step1_upload (gw : Gw) (file_name : String) (extracted_text : Option String)
    (s : SessionState) : SessionState :=
  let s1 := { s with current_filename := Option.some file_name }
  if optTruthy extracted_text then
    let t := extracted_text.getD ""
    let s2 := { s1 with proposal_text := t }
    let pr := analyze_proposal_components gw t s2.extra_component
    { s2 with proposal_analysis := pr.1, ai_analysis_details := pr.2 }
  else s1

/-- The Analyze Proposal Components button (app.py step 1): recomputes the
component analysis over the current proposal text and overwrites only
proposal_analysis and ai_analysis_details. -/
def rerun_component_analysis (gw : Gw) (s : SessionState) : SessionState :=
  let pr := analyze_proposal_components gw s.proposal_text s.extra_component
  { s with proposal_analysis := pr.1, ai_analysis_details := pr.2 }

/-- Step-2 body (app.py): when price_analysis is falsy, run analyze_pricing
on the proposal text and the cached AI analysis details and cache the
returned string; otherwise leave the session untouched. -/
def step2_run (gw : Gw) (s : SessionState) : SessionState :=
  if optTruthy s.price_analysis then s
  else
    { s with price_analysis :=
        Option.some (GeminiClient.analyze_pricing gw s.proposal_text
          (pyStr s.ai_analysis_details)) }

/-- Back to Component Analysis button (step 2): sets step to 1. -/
def back_to_component_analysis (s : SessionState) : SessionState :=
  { s with step := 1 }

/-- Back to Price Analysis button (step 3): sets step to 2. -/
def back_to_price_analysis (s : SessionState) : SessionState :=
  { s with step := 2 }

/-- Back to Cost Realism button (step 4): sets step to 3. -/
def back_to_cost_realism (s : SessionState) : SessionState :=
  { s with step := 3 }

/-- Back to Technical Analysis button (step 5): sets step to 4. -/
def back_to_technical_analysis (s : SessionState) : SessionState :=
  { s with step := 4 }

/-- Every session key other than the step pointer, bundled for frame
statements about navigation. -/
def sessionCaches (s : SessionState) :
    String × Option (List (String × String)) × Option String × Option String ×
    String × Option String × Option String × Option String × Option String ×
    Option String × Option String × Bool :=
  (s.proposal_text, s.proposal_analysis, s.ai_analysis_details, s.proposal_summary,
   s.extra_component, s.current_filename, s.price_analysis, s.cost_realism,
   s.unbalanced_pricing, s.technical_analysis, s.compliance_assessment, s.processing)

/-- The checkbox selection passed to run_analyses. -/
structure Flags where
  run_component_analysis : Bool
  run_price_analysis : Bool
  run_cost_realism : Bool
  run_technical_analysis : Bool
  run_compliance : Bool
deriving DecidableEq, Repr

/-- A dict entry keyed by a stage identifier: present or absent. -/
def optEntry (k : String) (o : Option String) : List (String × String) :=
  match o with
  | Option.some v => [(k, v)]
  | Option.none => []

/-- What run_analyses produces: the results dict in insertion order, plus
the error banners shown via st.error. -/
structure RunOutcome where
  results : List (String × String)
  errors : List String
deriving DecidableEq, Repr

/-- The extra_components value for the component branch of run_analyses:
the raw new_feature text when its strip() is truthy, else None. -/
def componentExtra (new_feature : String) : ExtraComponents :=
  if pyTruthyStr new_feature.trim then ExtraComponents.ofStr new_feature
  else ExtraComponents.nil

/-- The component-analysis branch of run_analyses: runs only when selected;
its try/except catches the propagated gateway error, so on failure no entry
is stored. -/
def componentResult (gw : Gw) (proposal_text new_feature : String) (f : Flags) :
    Option String :=
  if f.run_component_analysis then
    match GeminiClient.analysis_proposal gw proposal_text (componentExtra new_feature) with
    | Except.ok t => Option.some t
    | Except.error _ => Option.none
  else Option.none

/-- The st.error banners of the component branch of run_analyses. -/
def componentErrors (gw : Gw) (proposal_text new_feature : String) (f : Flags) :
    List String :=
  if f.run_component_analysis then
    match GeminiClient.analysis_proposal gw proposal_text (componentExtra new_feature) with
    | Except.ok _ => []
    | Except.error e => ["❌ Component Analysis failed: " ++ e.message]
  else []

/-- The pricing branch of run_analyses: guarded by the selection flag AND
membership of component_analysis in the results dict; analyze_pricing never
raises (internal catch), so this branch produces no st.error banner. -/
def priceResult (gw : Gw) (proposal_text new_feature : String) (f : Flags) :
    Option String :=
  match componentResult gw proposal_text new_feature f with
  | Option.some c =>
      if f.run_price_analysis
      then Option.some (GeminiClient.analyze_pricing gw proposal_text c)
      else Option.none
  | Option.none => Option.none

/-- The cost-realism branch of run_analyses, guarded like the pricing one. -/
def costRealismResult (gw : Gw) (proposal_text new_feature : String) (f : Flags) :
    Option String :=
  match componentResult gw proposal_text new_feature f with
  | Option.some c =>
      if f.run_cost_realism
      then Option.some (GeminiClient.analyze_cost_realism gw proposal_text c)
      else Option.none
  | Option.none => Option.none

/-- The technical-analysis branch of run_analyses (no prerequisite guard). -/
def technicalResult (gw : Gw) (proposal_text : String) (f : Flags) : Option String :=
  if f.run_technical_analysis
  then Option.some (GeminiClient.technical_analysis_review gw proposal_text)
  else Option.none

/-- The compliance branch of run_analyses (no prerequisite guard). -/
def complianceResult (gw : Gw) (proposal_text : String) (f : Flags) : Option String :=
  if f.run_compliance
  then Option.some (GeminiClient.compliance_assessment gw proposal_text)
  else Option.none

/-- run_analyses (app.py): executes the selected branches in the fixed
source order, building the results dict in that insertion order; only the
component branch can surface an error banner, the four later branches catch
gateway errors internally and store the error text as their result. -/
def run_analyses (gw : Gw) (proposal_text new_feature : String) (f : Flags) :
    RunOutcome :=
  { results :=
      optEntry "component_analysis" (componentResult gw proposal_text new_feature f)
      ++ optEntry "price_analysis" (priceResult gw proposal_text new_feature f)
      ++ optEntry "cost_realism" (costRealismResult gw proposal_text new_feature f)
      ++ optEntry "technical_analysis" (technicalResult gw proposal_text f)
      ++ optEntry "compliance_assessment" (complianceResult gw proposal_text f),
    errors := componentErrors gw proposal_text new_feature f }

/-- The executive-summary block of display_results (app.py): runs only when
the summary checkbox is set and the results dict is truthy (nonempty);
passes the component analysis with an empty-string default and the four
optional analyses as dict lookups that default to None. -/
def display_results_summary (gw : Gw) (proposal_text : String)
    (results : List (String × String)) (generate_summary : Bool) : Option String :=
  if generate_summary && !results.isEmpty then
    Option.some (GeminiClient.analysis_proposal_summary gw proposal_text
      ((results.lookup "component_analysis").getD "")
      (results.lookup "price_analysis")
      (results.lookup "cost_realism")
      (results.lookup "technical_analysis")
      (results.lookup "compliance_assessment"))
  else Option.none

/-- Python str.title() walk: a letter at the start or after a non-letter is
upper-cased, every other letter is lower-cased; the flag records whether
the previous character was a non-letter. -/
def titleAux : Bool → List Char → List Char
  | _, [] => []
  | boundary, c :: cs =>
    if c.isAlpha then
      (if boundary then c.toUpper else c.toLower) :: titleAux false cs
    else
      c :: titleAux true cs

/-- The section-title derivation of download_all_results:
key.replace(underscore, space).title(). -/
def pyTitle (s : String) : String :=
  String.mk (titleAux true (s.data.map (fun c => if c = '_' then ' ' else c)))

/-- One section of the combined report: the title derived from the dict
key, prefixed with a markdown heading, then the stored result. -/
def resultSection (kv : String × String) : String :=
  "## " ++ pyTitle kv.1 ++ "\n\n" ++ kv.2 ++ "\n\n---\n\n"

/-- download_all_results (app.py): the combined report is a fixed header
followed by one section per results-dict entry, in dict iteration order
(which is insertion order). -/
def download_all_results (generated_on : String) (results : List (String × String)) :
    String :=
  "# Complete Proposal Analysis Report\n\n"
  ++ "**Generated on:** " ++ generated_on ++ "\n\n"
  ++ "---\n\n"
  ++ String.join (results.map resultSection)

/-- The canonical stage order of the results dict, as inserted by
run_analyses (the executive summary is displayed separately and never
enters the results dict). -/
def canonicalStageOrder : List String :=
  ["component_analysis", "price_analysis", "cost_realism",
   "technical_analysis", "compliance_assessment"]

end App

namespace MainApi

/-- Request body of POST /analyze/pricing (backend main.py). -/
structure analyzePricingRequest where
  proposal_text : String
  ai_analysis_details : String
  costing_file_text : Option String
  manual_costing_text : Option String
deriving DecidableEq, Repr

/-- Response body shared by the analysis routes of backend main.py. -/
structure ApiResponse where
  status : String
  result : String
  error : Option String
deriving DecidableEq, Repr

/-- Request body of POST /analyze/cost-realism (backend main.py). -/
structure coastAnalysisRequest where
  proposal_text : String
  ai_analysis_details : Option String
deriving DecidableEq, Repr

/-- The costing_info block of main.py analyze_pricing, selected by Python
truthiness of the two optional costing inputs. -/
def costing_info (c m : Option String) : String :=
  if optTruthy c && optTruthy m then
    "COSTING FILE DATA:\n" ++ c.getD "" ++ "\nMANUAL COSTING DATA:\n" ++ m.getD ""
  else if optTruthy c then
    "COSTING FILE DATA:\n" ++ c.getD ""
  else if optTruthy m then
    "MANUAL COSTING DATA:\n" ++ m.getD ""
  else
    "No additional costing data provided."

/-- The ai_analysis_section block of main.py analyze_pricing. -/
def ai_analysis_section (ai : Option String) : String :=
  if optTruthy ai then
    "AI ANALYSIS DETAILS (Component Scope Reference):\n" ++ ai.getD ""
  else
    "No AI analysis details provided. Analysis will be based on proposal text and costing data."

/-- The available_sources list of main.py analyze_pricing. -/
def available_sources (c m : Option String) : List String :=
  ["Proposal"]
  ++ (if optTruthy c then ["Costing File"] else [])
  ++ (if optTruthy m then ["Manual Costing"] else [])

/-- Prompt of main.py analyze_pricing (prose condensed; interpolation
structure as in the source). -/
def analyze_pricing_prompt (proposal_text : String) (ai c m : Option String) : String :=
  "Perform a comprehensive component-wise price analysis on the following proposal. Cross-reference pricing information from the proposal with any additional costing data provided.\nAVAILABLE PRICING SOURCES: "
  ++ String.intercalate ", " (available_sources c m)
  ++ "\nPROPOSAL TEXT:\n" ++ proposal_text
  ++ "\n" ++ ai_analysis_section ai
  ++ "\nADDITIONAL COSTING INFORMATION:\n" ++ costing_info c m
  ++ "\nCOMPONENT-WISE PRICING ANALYSIS"

/-- main.py analyze_pricing: one gateway call with an internal try/except
that turns a gateway failure into an error-message string. -/
def analyze_pricing (gw : Gw) (proposal_text : String) (ai c m : Option String) : String :=
  match gw (analyze_pricing_prompt proposal_text ai c m) with
  | Except.ok t => t
  | Except.error e => "Error in component-wise price analysis: " ++ e.message

/-- Prompt of main.py analyze_cost_realism (prose condensed); a None
ai_analysis_details is interpolated by the f-string as the text None. -/
def analyze_cost_realism_prompt (proposal_text : String) (ai : Option String) : String :=
  "Perform a comprehensive cost realism analysis on the following government contract proposal per FAR 15.404-1(d).\nPROPOSAL TEXT:\n"
  ++ proposal_text
  ++ "\nAI ANALYSIS DETAILS:\n"
  ++ pyStr ai
  ++ "\nCOST REALISM ANALYSIS REQUIREMENTS:"

/-- main.py analyze_cost_realism with its internal try/except. -/
def analyze_cost_realism (gw : Gw) (proposal_text : String) (ai : Option String) : String :=
  match gw (analyze_cost_realism_prompt proposal_text ai) with
  | Except.ok t => t
  | Except.error e => "Error in cost realism analysis: " ++ e.message

/-- Route handler of POST /analyze/pricing: no prerequisite check of any
kind; the body forwards (proposal_text, costing_file_text,
manual_costing_text) positionally into analyze_pricing, so
costing_file_text lands in the ai_analysis_details parameter and
manual_costing_text in costing_file_text, with manual_costing_text left at
its None default.  The except branch of the route is unreachable because
analyze_pricing catches its own gateway errors, so the status is always
success. -/
def analyze_pricing_api (gw : Gw) (r : analyzePricingRequest) : ApiResponse :=
  { status := "success",
    result := analyze_pricing gw r.proposal_text r.costing_file_text
      r.manual_costing_text Option.none,
    error := Option.none }

/-- Route handler of POST /analyze/cost-realism: no prerequisite check; the
except branch is likewise unreachable, so the status is always success. -/
def analyze_cost_realism_api (gw : Gw) (r : coastAnalysisRequest) : ApiResponse :=
  { status := "success",
    result := analyze_cost_realism gw r.proposal_text r.ai_analysis_details,
    error := Option.none }

/-- The recognized content type of DOCX uploads. -/
def docxType : String :=
  "application/vnd.openxmlformats-officedocument.wordprocessingml.document"

/-- An uploaded file as seen by the FastAPI routes: its metadata, the
UTF-8 decoding of its bytes (used on the text/plain path), and the outcome
each Gemini extractor would produce for it (a raised error message, a None
return, or extracted text). -/
structure UploadFile where
  filename : String
  content_type : String
  decoded_text : String
  docx_extract : Except String (Option String)
  pdf_extract : Except String (Option String)
deriving Repr

/-- The Python expression content if content else None: an empty extracted
string is collapsed to None. -/
def truthyOrNone (o : Option String) : Option String :=
  match o with
  | Option.some s => if s == "" then Option.none else Option.some s
  | Option.none => Option.none

/-- main.py process_uploaded_file_Proposal: dispatches on content_type;
text/plain returns the decoded bytes, DOCX and PDF delegate to the Gemini
extractors (re-raising their errors wrapped in an Error-processing-file
message), and any other content type returns None without consulting any
extractor. -/
def process_uploaded_file_Proposal (file : UploadFile) : Except String (Option String) :=
  if file.content_type == "text/plain" then
    Except.ok (Option.some file.decoded_text)
  else if file.content_type == docxType then
    match file.docx_extract with
    | Except.ok c => Except.ok (truthyOrNone c)
    | Except.error e =>
        Except.error ("Error processing file " ++ file.filename ++ ": " ++ e)
  else if file.content_type == "application/pdf" then
    match file.pdf_extract with
    | Except.ok c => Except.ok (truthyOrNone c)
    | Except.error e =>
        Except.error ("Error processing file " ++ file.filename ++ ": " ++ e)
  else
    Except.ok Option.none

/-- A raised Python exception as observed by the route: either a plain
Exception or an HTTPException with a status code. -/
inductive PyExc where
  | generic : String → PyExc
  | http : Nat → String → PyExc
deriving DecidableEq, Repr

/-- str(e) as used when the catch-all re-wraps an exception: the carried
message or detail text. -/
def pyStrExc : PyExc → String
  | PyExc.generic m => m
  | PyExc.http _ d => d

/-- The JSON payload of a successful POST /upload/proposal. -/
structure UploadSuccess where
  status : String
  filename : String
  content_type : String
  text : String
deriving DecidableEq, Repr

/-- Route handler of POST /upload/proposal: failed processing (a None
text) raises HTTPException 400, a raised extraction error propagates, and
the catch-all except re-raises whatever escaped the body as HTTPException
500 with str(e) as detail — so every failure surfaces as an HTTP error and
no success payload is produced. -/
def upload_proposal_file (file : UploadFile) : Except PyExc UploadSuccess :=
  let body : Except PyExc UploadSuccess :=
    match process_uploaded_file_Proposal file with
    | Except.error e => Except.error (PyExc.generic e)
    | Except.ok Option.none =>
        Except.error (PyExc.http 400 "Failed to process the file")
    | Except.ok (Option.some t) =>
        Except.ok
          { status := "success", filename := file.filename,
            content_type := file.content_type, text := t }
  match body with
  | Except.ok r => Except.ok r
  | Except.error e => Except.error (PyExc.http 500 (pyStrExc e))

/-- The content types recognized by process_uploaded_file_Proposal. -/
def recognizedTypes : List String :=
  ["text/plain", docxType, "application/pdf"]

end MainApi

/-- A gateway whose generate_content call always succeeds with a fixed
response text. -/
def okGw : Gw := fun _ => Except.ok "LLM OUTPUT"

/-- A gateway whose generate_content call always raises a timeout. -/
def failTimeoutGw : Gw := fun _ => Except.error GenError.timeout

/-- A session in which the document and every analysis stage through
compliance have completed (the state reached by walking steps 1 to 5). -/
def completedSession : App.SessionState :=
  { step := 5,
    proposal_text := "OLD DOC",
    proposal_analysis := Option.some App.proposal_components_checklist,
    ai_analysis_details := Option.some "AI DETAILS",
    proposal_summary := Option.none,
    extra_component := "",
    current_filename := Option.some "old.pdf",
    price_analysis := Option.some "PRICE RESULT",
    cost_realism := Option.some "COST RESULT",
    unbalanced_pricing := Option.none,
    technical_analysis := Option.some "TECH RESULT",
    compliance_assessment := Option.some "COMPLIANCE RESULT",
    processing := false }

/-- A session entering step 2 for the first time: component analysis has
completed, price analysis has not run yet. -/
def freshStep2Session : App.SessionState :=
  { step := 2,
    proposal_text := "DOC",
    proposal_analysis := Option.some App.proposal_components_checklist,
    ai_analysis_details := Option.some "AI DETAILS",
    proposal_summary := Option.none,
    extra_component := "",
    current_filename := Option.some "doc.pdf",
    price_analysis := Option.none,
    cost_realism := Option.none,
    unbalanced_pricing := Option.none,
    technical_analysis := Option.none,
    compliance_assessment := Option.none,
    processing := false }

/-- An uploaded file whose content type is recognized by no branch of the
upload dispatcher. -/
def unsupportedUpload : MainApi.UploadFile :=
  { filename := "logo.png",
    content_type := "image/png",
    decoded_text := "",
    docx_extract := Except.ok Option.none,
    pdf_extract := Except.ok Option.none }




/-! ## Helper lemmas -/

/-- Appending to a nonempty string never yields the empty string. -/
theorem string_append_ne_empty (a b : String) (h : a ≠ "") : a ++ b ≠ "" := by
  intro hab
  apply h
  cases a with
  | mk la =>
  cases b with
  | mk lb =>
  have hdata : la ++ lb = [] := congrArg String.data hab
  have hla : la = [] := (List.append_eq_nil.mp hdata).1
  simp [hla]

/-- The keys contributed by one optional dict entry form a sublist of the
singleton key. -/
theorem optEntry_key_sublist (k : String) (o : Option String) :
    ((App.optEntry k o).map Prod.fst).Sublist [k] := by
  cases o with
  | none => exact List.nil_sublist _
  | some v => exact List.Sublist.refl _

/-- Index-wise description of the numbering loop of analysis_proposal. -/
theorem numberedFrom_getElem (k : Nat) (l : List String) (i : Nat) :
    (GeminiClient.numberedFrom k l)[i]? =
      l[i]?.map (fun c => toString (k + i) ++ ". " ++ c) := by
  induction l generalizing k i with
  | nil => simp [GeminiClient.numberedFrom]
  | cons c cs ih =>
    cases i with
    | zero => simp [GeminiClient.numberedFrom]
    | succ j =>
      simp only [GeminiClient.numberedFrom, List.getElem?_cons_succ]
      rw [ih (k + 1) j]
      rw [show k + 1 + j = k + (j + 1) from by omega]

/-! ## Claim theorems -/

/-- Claim C7 (confirmed): every Back transition of the step-wise workflow
rewrites only the step pointer (to the target step) and leaves every cached
stage result, the document text, and all other session keys unchanged. -/
theorem C7_retreat_preserves_caches (s : App.SessionState) :
    App.sessionCaches (App.back_to_component_analysis s) = App.sessionCaches s
    ∧ App.sessionCaches (App.back_to_price_analysis s) = App.sessionCaches s
    ∧ App.sessionCaches (App.back_to_cost_realism s) = App.sessionCaches s
    ∧ App.sessionCaches (App.back_to_technical_analysis s) = App.sessionCaches s
    ∧ (App.back_to_component_analysis s).step = 1
    ∧ (App.back_to_price_analysis s).step = 2
    ∧ (App.back_to_cost_realism s).step = 3
    ∧ (App.back_to_technical_analysis s).step = 4 :=
  ⟨rfl, rfl, rfl, rfl, rfl, rfl, rfl, rfl⟩

/-- Claim C8 (confirmed): uploading a file whose content type is not one of
text/plain, the DOCX type, or application/pdf makes the upload route fail
with an HTTP error and produce no success payload: the dispatcher returns
None without consulting any extractor, and the route turns that into an
HTTP exception, so no document text is returned to the caller and no state
is created. -/
theorem C8_unsupported_upload_fails (file : MainApi.UploadFile)
    (h : file.content_type ∉ MainApi.recognizedTypes) :
    MainApi.process_uploaded_file_Proposal file = Except.ok Option.none
    ∧ MainApi.upload_proposal_file file
        = Except.error (MainApi.PyExc.http 500 "Failed to process the file") := by
  simp [MainApi.recognizedTypes] at h
  obtain ⟨h1, h2, h3⟩ := h
  constructor
  · simp [MainApi.process_uploaded_file_Proposal, h1, h2, h3]
  · simp [MainApi.upload_proposal_file, MainApi.process_uploaded_file_Proposal,
      MainApi.pyStrExc, h1, h2, h3]

/-- Witness for C8: a PNG upload is rejected with the HTTP error and yields
no extracted text. -/
theorem C8_unsupported_upload_fails_witness :
    unsupportedUpload.content_type ∉ MainApi.recognizedTypes
    ∧ MainApi.upload_proposal_file unsupportedUpload
        = Except.error (MainApi.PyExc.http 500 "Failed to process the file") :=
  ⟨by decide, (C8_unsupported_upload_fails unsupportedUpload (by decide)).2⟩

/-- Claim C9 (confirmed): the per-component presence checklist returned by
analyze_proposal_components is a constant: whenever two calls with any
gateways, proposal texts, and extra-component strings both succeed, they
return the identical dictionary of 11 component names, each mapped to the
check-mark indicator; only the AI free-text component of the returned pair
depends on the inputs. -/
theorem C9_checklist_constant (gw1 gw2 : Gw) (p1 p2 e1 e2 : String)
    (c1 c2 : List (String × String)) (a1 a2 : Option String)
    (h1 : App.analyze_proposal_components gw1 p1 e1 = (Option.some c1, a1))
    (h2 : App.analyze_proposal_components gw2 p2 e2 = (Option.some c2, a2)) :
    c1 = c2 ∧ c1 = App.proposal_components_checklist ∧ c1.length = 11
    ∧ ∀ kv ∈ c1, kv.2 = "✅" := by
  have g1 : c1 = App.proposal_components_checklist := by
    unfold App.analyze_proposal_components at h1
    cases hh : GeminiClient.analysis_proposal gw1 p1
        (GeminiClient.ExtraComponents.ofStr e1) with
    | ok t => rw [hh] at h1; simp at h1; exact h1.1.symm
    | error e => rw [hh] at h1; simp at h1
  have g2 : c2 = App.proposal_components_checklist := by
    unfold App.analyze_proposal_components at h2
    cases hh : GeminiClient.analysis_proposal gw2 p2
        (GeminiClient.ExtraComponents.ofStr e2) with
    | ok t => rw [hh] at h2; simp at h2; exact h2.1.symm
    | error e => rw [hh] at h2; simp at h2
  subst g1
  subst g2
  exact ⟨rfl, rfl, by decide, by decide⟩

/-- Witness for C9: two successful calls on different inputs return the
same constant checklist. -/
theorem C9_checklist_constant_witness :
    App.analyze_proposal_components okGw "PROPOSAL ONE" ""
        = (Option.some App.proposal_components_checklist, Option.some "LLM OUTPUT")
    ∧ App.proposal_components_checklist = App.proposal_components_checklist
    ∧ App.proposal_components_checklist.length = 11 :=
  ⟨rfl,
   (C9_checklist_constant okGw okGw "PROPOSAL ONE" "PROPOSAL TWO" "" "EXTRA"
      App.proposal_components_checklist App.proposal_components_checklist
      (Option.some "LLM OUTPUT") (Option.some "LLM OUTPUT") rfl rfl).1,
   (C9_checklist_constant okGw okGw "PROPOSAL ONE" "PROPOSAL TWO" "" "EXTRA"
      App.proposal_components_checklist App.proposal_components_checklist
      (Option.some "LLM OUTPUT") (Option.some "LLM OUTPUT") rfl rfl).2.2.1⟩

/-- Claim C10 (confirmed): the checklist embedded in the analysis_proposal
prompt always begins with the 14 standard components in their fixed order
(the standard list reappears unchanged as the first 14 entries in every
case); a falsy extra_components (None, empty string, empty list) appends
nothing, a non-empty string appends exactly one entry numbered 15, and a
list of n items appends entries numbered 15 through 14+n in list order. -/
theorem C10_components_checklist (extra : GeminiClient.ExtraComponents) :
    (GeminiClient.components_to_check extra).take 14 = GeminiClient.standard_components
    ∧ GeminiClient.components_to_check GeminiClient.ExtraComponents.nil
        = GeminiClient.standard_components
    ∧ GeminiClient.components_to_check (GeminiClient.ExtraComponents.ofStr "")
        = GeminiClient.standard_components
    ∧ GeminiClient.components_to_check (GeminiClient.ExtraComponents.ofList [])
        = GeminiClient.standard_components
    ∧ (∀ s : String, s ≠ "" →
        GeminiClient.components_to_check (GeminiClient.ExtraComponents.ofStr s)
          = GeminiClient.standard_components ++ ["15. " ++ s])
    ∧ (∀ l : List String, ∀ i : Nat,
        ((GeminiClient.components_to_check (GeminiClient.ExtraComponents.ofList l)).drop 14)[i]?
          = l[i]?.map (fun c => toString (15 + i) ++ ". " ++ c)) := by
  have hlen : GeminiClient.standard_components.length = 14 := rfl
  refine ⟨?_, rfl, rfl, rfl, ?_, ?_⟩
  · unfold GeminiClient.components_to_check
    rw [← hlen]
    exact List.take_left _ _
  · intro s hs
    have hbeq : (s == "") = false := beq_eq_false_iff_ne.mpr hs
    have h15 : toString (GeminiClient.standard_components.length + 1) ++ ". "
        = "15. " := rfl
    simp [GeminiClient.components_to_check, GeminiClient.ExtraComponents.truthy,
      pyTruthyStr, hbeq, String.append_assoc, h15]
  · intro l i
    cases l with
    | nil =>
      simp [GeminiClient.components_to_check, GeminiClient.ExtraComponents.truthy, hlen]
    | cons c cs =>
      have hdrop :
          (GeminiClient.components_to_check
              (GeminiClient.ExtraComponents.ofList (c :: cs))).drop 14
            = GeminiClient.numberedFrom 15 (c :: cs) := by
        unfold GeminiClient.components_to_check
        simp only [GeminiClient.ExtraComponents.truthy, List.isEmpty_cons,
          Bool.not_false, if_true]
        rw [show GeminiClient.standard_components.length + 1 = 15 from rfl]
        rw [← hlen, List.drop_left]
      rw [hdrop, numberedFrom_getElem]

/-- Witness for C10: a concrete non-empty extra component string appends
exactly the entry numbered 15. -/
theorem C10_components_checklist_witness :
    ("Security Plan" : String) ≠ ""
    ∧ GeminiClient.components_to_check
        (GeminiClient.ExtraComponents.ofStr "Security Plan")
      = GeminiClient.standard_components ++ ["15. " ++ "Security Plan"] :=
  ⟨by decide,
   (C10_components_checklist
      (GeminiClient.ExtraComponents.ofStr "Security Plan")).2.2.2.2.1
     "Security Plan" (by decide)⟩

/-- Claim C6 (confirmed): the executive-summary stage runs with any subset
of the optional analyses present: the display_results block invokes it
whenever the summary checkbox is set and any analysis result exists (there
is no fixed prerequisite set to fail on), and the summary prompt
substitutes the fixed text Not performed for each of price analysis, cost
realism, technical analysis, and compliance assessment that is absent
(None or empty), using the document text plus whichever analyses exist. -/
theorem C6_summary_partial_inputs (gw : Gw) (pt : String)
    (results : List (String × String)) (h : results ≠ []) :
    (App.display_results_summary gw pt results true).isSome = true
    ∧ (∀ ai : String, ∀ cost tech compl : Option String,
        GeminiClient.analysis_proposal_summary_prompt pt ai Option.none cost tech compl
          = GeminiClient.summary_prompt_core pt ai "Not performed"
              (GeminiClient.orNotPerformed cost) (GeminiClient.orNotPerformed tech)
              (GeminiClient.orNotPerformed compl))
    ∧ (∀ ai : String, ∀ price tech compl : Option String,
        GeminiClient.analysis_proposal_summary_prompt pt ai price Option.none tech compl
          = GeminiClient.summary_prompt_core pt ai
              (GeminiClient.orNotPerformed price) "Not performed"
              (GeminiClient.orNotPerformed tech) (GeminiClient.orNotPerformed compl))
    ∧ (∀ ai : String, ∀ price cost compl : Option String,
        GeminiClient.analysis_proposal_summary_prompt pt ai price cost Option.none compl
          = GeminiClient.summary_prompt_core pt ai
              (GeminiClient.orNotPerformed price) (GeminiClient.orNotPerformed cost)
              "Not performed" (GeminiClient.orNotPerformed compl))
    ∧ (∀ ai : String, ∀ price cost tech : Option String,
        GeminiClient.analysis_proposal_summary_prompt pt ai price cost tech Option.none
          = GeminiClient.summary_prompt_core pt ai
              (GeminiClient.orNotPerformed price) (GeminiClient.orNotPerformed cost)
              (GeminiClient.orNotPerformed tech) "Not performed")
    ∧ GeminiClient.orNotPerformed (Option.some "") = "Not performed" := by
  refine ⟨?_, fun ai cost tech compl => rfl, fun ai price tech compl => rfl,
    fun ai price cost compl => rfl, fun ai price cost tech => rfl, rfl⟩
  cases results with
  | nil => exact absurd rfl h
  | cons a l => simp [App.display_results_summary]

/-- Witness for C6: the summary stage is invoked when only the technical
analysis exists (no component analysis, pricing, cost realism, or
compliance). -/
theorem C6_summary_partial_inputs_witness :
    ([("technical_analysis", "TECH RESULT")] : List (String × String)) ≠ []
    ∧ (App.display_results_summary okGw "DOC"
        [("technical_analysis", "TECH RESULT")] true).isSome = true :=
  ⟨by decide,
   (C6_summary_partial_inputs okGw "DOC"
      [("technical_analysis", "TECH RESULT")] (by decide)).1⟩

/-- Claim C5 (confirmed): for every checkbox selection and every gateway
behaviour (hence every subset of completed stages), the combined report of
download_all_results lists its sections in the canonical stage order of the
results dict — component analysis, price analysis, cost realism, technical
analysis, compliance assessment — because run_analyses inserts entries in
exactly that order; each section is prefixed with the stage label derived
from its key.  (The executive summary never enters the results dict, so
the report contains at most these five sections.) -/
theorem C5_report_canonical_order (gw : Gw) (pt nf ts : String) (f : App.Flags) :
    ((App.run_analyses gw pt nf f).results.map Prod.fst).Sublist App.canonicalStageOrder
    ∧ App.download_all_results ts (App.run_analyses gw pt nf f).results
        = "# Complete Proposal Analysis Report\n\n"
          ++ "**Generated on:** " ++ ts ++ "\n\n"
          ++ "---\n\n"
          ++ String.join ((App.run_analyses gw pt nf f).results.map
              (fun kv => "## " ++ App.pyTitle kv.1 ++ "\n\n" ++ kv.2 ++ "\n\n---\n\n"))
    ∧ App.pyTitle "component_analysis" = "Component Analysis"
    ∧ App.pyTitle "price_analysis" = "Price Analysis"
    ∧ App.pyTitle "cost_realism" = "Cost Realism"
    ∧ App.pyTitle "technical_analysis" = "Technical Analysis"
    ∧ App.pyTitle "compliance_assessment" = "Compliance Assessment" := by
  refine ⟨?_, rfl, by decide, by decide, by decide, by decide, by decide⟩
  have h1 := optEntry_key_sublist "component_analysis" (App.componentResult gw pt nf f)
  have h2 := optEntry_key_sublist "price_analysis" (App.priceResult gw pt nf f)
  have h3 := optEntry_key_sublist "cost_realism" (App.costRealismResult gw pt nf f)
  have h4 := optEntry_key_sublist "technical_analysis" (App.technicalResult gw pt f)
  have h5 := optEntry_key_sublist "compliance_assessment" (App.complianceResult gw pt f)
  have hmain := (((h1.append h2).append h3).append h4).append h5
  simpa [App.run_analyses, App.canonicalStageOrder, List.map_append] using hmain

/-- Counterexample to claim C1 as stated: with the component-analysis call
failing (so the prerequisite of pricing and cost realism is not Completed)
and both dependent stages selected, run_analyses produces no
PrerequisiteNotMetError of any kind — the dependent branches are silently
skipped (empty results dict, and the only banner is the component-failure
one) — and the /analyze/pricing route runs the pricing stage and answers
success although no component analysis exists anywhere. -/
theorem C1_counterexample :
    (App.run_analyses failTimeoutGw "doc" "" ⟨true, true, true, false, false⟩).results = []
    ∧ (App.run_analyses failTimeoutGw "doc" "" ⟨true, true, true, false, false⟩).errors
        = ["❌ Component Analysis failed: Timeout"]
    ∧ MainApi.analyze_pricing_api okGw ⟨"doc", "", Option.none, Option.none⟩
        = ⟨"success", "LLM OUTPUT", Option.none⟩ :=
  ⟨rfl, rfl, rfl⟩

/-- Claim C1 (corrected): when the component-analysis prerequisite is not
Completed (absent from the results dict), the run_analyses pricing and
cost-realism branches do not run — but they skip silently: no result entry
is stored and no error beyond the component-failure banner is surfaced
(the banner list is unchanged by the pricing and cost-realism selections);
and the /analyze/pricing and /analyze/cost-realism routes perform no
prerequisite check at all, always answering status success. -/
theorem C1_prerequisite_silent_skip (gw : Gw) (pt nf : String) (f : App.Flags)
    (h : (App.run_analyses gw pt nf f).results.lookup "component_analysis"
          = Option.none) :
    (App.run_analyses gw pt nf f).results.lookup "price_analysis" = Option.none
    ∧ (App.run_analyses gw pt nf f).results.lookup "cost_realism" = Option.none
    ∧ (App.run_analyses gw pt nf f).errors
        = (App.run_analyses gw pt nf
            { f with run_price_analysis := false, run_cost_realism := false }).errors
    ∧ (∀ r : MainApi.analyzePricingRequest,
        (MainApi.analyze_pricing_api gw r).status = "success")
    ∧ (∀ r : MainApi.coastAnalysisRequest,
        (MainApi.analyze_cost_realism_api gw r).status = "success") := by
  cases hc : App.componentResult gw pt nf f with
  | some t =>
    exfalso
    have hlook : (App.run_analyses gw pt nf f).results.lookup "component_analysis"
        = Option.some t := by
      simp [App.run_analyses, hc, App.optEntry, List.lookup]
    rw [hlook] at h
    exact Option.noConfusion h
  | none =>
    have hp : App.priceResult gw pt nf f = Option.none := by
      simp [App.priceResult, hc]
    have hcr : App.costRealismResult gw pt nf f = Option.none := by
      simp [App.costRealismResult, hc]
    refine ⟨?_, ?_, rfl, fun r => rfl, fun r => rfl⟩
    · cases ht : App.technicalResult gw pt f <;>
        cases hco : App.complianceResult gw pt f <;>
          simp [App.run_analyses, hc, hp, hcr, ht, hco, App.optEntry, List.lookup]
    · cases ht : App.technicalResult gw pt f <;>
        cases hco : App.complianceResult gw pt f <;>
          simp [App.run_analyses, hc, hp, hcr, ht, hco, App.optEntry, List.lookup]

/-- Witness for the corrected C1: concrete run in which the prerequisite is
absent and the statement applies. -/
theorem C1_prerequisite_silent_skip_witness :
    (App.run_analyses failTimeoutGw "doc" ""
        ⟨true, true, true, false, false⟩).results.lookup "component_analysis"
      = Option.none
    ∧ (App.run_analyses failTimeoutGw "doc" ""
        ⟨true, true, true, false, false⟩).results.lookup "price_analysis"
      = Option.none :=
  ⟨rfl,
   (C1_prerequisite_silent_skip failTimeoutGw "doc" ""
      ⟨true, true, true, false, false⟩ rfl).1⟩

/-- Counterexample to claim C2 as stated: a gateway timeout during the
step-2 price analysis does not produce a retryable Failed result — the
error-message string returned by analyze_pricing is cached as the price
analysis itself, the app treats it as present/completed (truthy), and
re-entering step 2 with a succeeding gateway changes nothing, so the stage
never transitions to the successful output. -/
theorem C2_counterexample :
    (App.step2_run failTimeoutGw freshStep2Session).price_analysis
        = Option.some "Error in component-wise price analysis: Timeout"
    ∧ optTruthy (App.step2_run failTimeoutGw freshStep2Session).price_analysis = true
    ∧ App.step2_run okGw (App.step2_run failTimeoutGw freshStep2Session)
        = App.step2_run failTimeoutGw freshStep2Session :=
  ⟨rfl, rfl, rfl⟩

/-- Claim C2 (corrected): when the gateway fails during the step-2 price
analysis, the error does not propagate (the session is not crashed — that
part of the claim holds) and the failure text is recorded, but not as a
retryable Failed status: the error-message string is cached as the stage
result, it is indistinguishable from a completed result under the truthy
presence check, and any subsequent re-entry of step 2 — with any gateway,
including a succeeding one — leaves the cached error string in place, so
the stage never transitions to Completed. -/
theorem C2_failure_cached_not_retryable (gw : Gw) (s : App.SessionState) (e : GenError)
    (hfresh : optTruthy s.price_analysis = false)
    (hgw : gw (GeminiClient.analyze_pricing_prompt s.proposal_text
        (pyStr s.ai_analysis_details)) = Except.error e) :
    (App.step2_run gw s).price_analysis
        = Option.some ("Error in component-wise price analysis: " ++ e.message)
    ∧ optTruthy (App.step2_run gw s).price_analysis = true
    ∧ ∀ gw2 : Gw, App.step2_run gw2 (App.step2_run gw s) = App.step2_run gw s := by
  have h1 : (App.step2_run gw s).price_analysis
      = Option.some ("Error in component-wise price analysis: " ++ e.message) := by
    simp [App.step2_run, hfresh, GeminiClient.analyze_pricing, hgw]
  have h2 : optTruthy (App.step2_run gw s).price_analysis = true := by
    rw [h1]
    simp [optTruthy, pyTruthyStr]
    exact string_append_ne_empty _ _ (by decide)
  refine ⟨h1, h2, fun gw2 => ?_⟩
  rw [App.step2_run]
  simp [h2]

/-- Witness for the corrected C2: the concrete failed run of the
counterexample state satisfies the hypotheses and the conclusion. -/
theorem C2_failure_cached_not_retryable_witness :
    optTruthy freshStep2Session.price_analysis = false
    ∧ (App.step2_run failTimeoutGw freshStep2Session).price_analysis
        = Option.some ("Error in component-wise price analysis: "
            ++ GenError.message GenError.timeout) :=
  ⟨rfl,
   (C2_failure_cached_not_retryable failTimeoutGw freshStep2Session
      GenError.timeout rfl rfl).1⟩

/-- Counterexample to claim C3 as stated: uploading a second document (the
document text changes from OLD DOC to NEW DOC) leaves the previously
completed price analysis cached and still reported complete, and the other
downstream stage results likewise survive. -/
theorem C3_counterexample :
    (App.step1_upload okGw "new.pdf" (Option.some "NEW DOC")
        completedSession).proposal_text = "NEW DOC"
    ∧ completedSession.proposal_text = "OLD DOC"
    ∧ (App.step1_upload okGw "new.pdf" (Option.some "NEW DOC")
        completedSession).price_analysis = Option.some "PRICE RESULT"
    ∧ optTruthy (App.step1_upload okGw "new.pdf" (Option.some "NEW DOC")
        completedSession).price_analysis = true
    ∧ (App.step1_upload okGw "new.pdf" (Option.some "NEW DOC")
        completedSession).technical_analysis = Option.some "TECH RESULT" :=
  ⟨rfl, rfl, rfl, rfl, rfl⟩

/-- Claim C3 (corrected): replacing the document stores the new text and
recomputes only the component analysis; it does not invalidate the other
cached stage results — price analysis, cost realism, technical analysis,
compliance assessment, and the summary all keep their prior values and
remain reported complete.  Every cached result is cleared only by the
explicit reset (reset_process_proposal), whose state has no completed
stage. -/
theorem C3_second_upload_keeps_downstream (gw : Gw) (fn : String)
    (ext : Option String) (s : App.SessionState) :
    (App.step1_upload gw fn ext s).price_analysis = s.price_analysis
    ∧ (App.step1_upload gw fn ext s).cost_realism = s.cost_realism
    ∧ (App.step1_upload gw fn ext s).technical_analysis = s.technical_analysis
    ∧ (App.step1_upload gw fn ext s).compliance_assessment = s.compliance_assessment
    ∧ (App.step1_upload gw fn ext s).proposal_summary = s.proposal_summary
    ∧ App.reset_process_proposal.price_analysis = Option.none
    ∧ App.reset_process_proposal.cost_realism = Option.none
    ∧ App.reset_process_proposal.technical_analysis = Option.none
    ∧ App.reset_process_proposal.compliance_assessment = Option.none
    ∧ App.reset_process_proposal.proposal_summary = Option.none
    ∧ App.reset_process_proposal.proposal_analysis = Option.none := by
  cases hext : optTruthy ext <;>
    simp [App.step1_upload, hext, App.reset_process_proposal]

/-- Counterexample to claim C4 as stated: rerunning the component analysis
(the prerequisite stage K) replaces only the component outputs; the
dependent pricing stage J keeps its completed result — it does not revert
to not-Completed. -/
theorem C4_counterexample :
    (App.rerun_component_analysis okGw completedSession).proposal_analysis
        = Option.some App.proposal_components_checklist
    ∧ (App.rerun_component_analysis okGw completedSession).ai_analysis_details
        = Option.some "LLM OUTPUT"
    ∧ (App.rerun_component_analysis okGw completedSession).price_analysis
        = Option.some "PRICE RESULT"
    ∧ optTruthy (App.rerun_component_analysis okGw completedSession).price_analysis
        = true :=
  ⟨rfl, rfl, rfl, rfl⟩

/-- Claim C4 (corrected): rerunning a prerequisite stage does not cascade:
the component-analysis rerun overwrites only proposal_analysis and
ai_analysis_details, while every downstream cached result (price analysis,
cost realism, technical analysis, compliance assessment, summary), the
document text, and the step pointer are left unchanged — so a stage J
depending on K stays Completed after rerunStage(K). -/
theorem C4_rerun_no_cascade (gw : Gw) (s : App.SessionState) :
    (App.rerun_component_analysis gw s).price_analysis = s.price_analysis
    ∧ (App.rerun_component_analysis gw s).cost_realism = s.cost_realism
    ∧ (App.rerun_component_analysis gw s).technical_analysis = s.technical_analysis
    ∧ (App.rerun_component_analysis gw s).compliance_assessment = s.compliance_assessment
    ∧ (App.rerun_component_analysis gw s).proposal_summary = s.proposal_summary
    ∧ (App.rerun_component_analysis gw s).proposal_text = s.proposal_text
    ∧ (App.rerun_component_analysis gw s).step = s.step :=
  ⟨rfl, rfl, rfl, rfl, rfl, rfl, rfl⟩
